import Mathlib

/-!
Verification development for the qTox profile / secure-session lifecycle
subsystem (Profile orchestrator, save-file persistence, avatar cache,
profile lock, history database wiring).

The C++ source under src/src/model is shallowly embedded: pure control flow
becomes Lean functions; byte buffers (QByteArray) become lists of naturals;
the filesystem becomes a map from path strings to optional byte buffers;
external collaborators whose sources are not part of this tree (ToxEncrypt,
QLockFile, the Tox core, RawDatabase) become explicit oracle parameters, so
that theorems quantify over every possible behaviour of those collaborators.
-/

namespace QToxProfile

/-- Byte buffers (QByteArray) are modelled as lists of naturals. -/
abbrev Bytes := List Nat

/-- Derived encryption keys (ToxEncrypt instances) are opaque handles. -/
abbrev Key := Nat

/-- The filesystem: a map from path to file contents; `none` means the file
does not exist. -/
abbrev FS := String → Option Bytes

/-- Modelled from the spec: the Encrypted Blob Codec (ToxEncrypt, whose
implementation is not in this tree). `isEncrypted` inspects a header,
`makeToxEncrypt` derives a key from a password alone, `makeToxEncryptData`
derives a key against an existing ciphertext's embedded parameters (both may
fail, returning `none`), and `decrypt` returns an empty buffer on failure.
All are oracles: theorems hold for every behaviour. -/
structure CryptoEnv where
  isEncrypted : Bytes → Bool
  makeToxEncrypt : String → Option Key
  makeToxEncryptData : String → Bytes → Option Key
  encrypt : Key → Bytes → Bytes
  decrypt : Key → Bytes → Bytes

/-- Error enumeration of the anonymous-namespace loader in profile.cpp. -/
inductive LoadToxDataError
  | OK
  | FILE_NOT_FOUND
  | COULD_NOT_READ_FILE
  | FILE_IS_EMPTY
  | ENCRYPTED_NO_PASSWORD
  | COULD_NOT_DERIVE_KEY
  | DECRYPTION_FAILED
  | DECRYPT_UNENCRYPTED_FILE
deriving DecidableEq, Repr

/-- Error enumeration of the anonymous-namespace creator in profile.cpp. -/
inductive CreateToxDataError
  | OK
  | COULD_NOT_DERIVE_KEY
  | PROFILE_LOCKED
  | ALREADY_EXISTS
  | LOCK_FAILED
deriving DecidableEq, Repr

/-- Result of `loadToxData`: the derived key (if any), the (decrypted) save
bytes, and the error classification. -/
structure LoadToxResult where
  key : Option Key
  data : Bytes
  error : LoadToxDataError
deriving DecidableEq, Repr

/-- Embedding of `loadToxData` (profile.cpp). `openOk` models the transient
success of `QFile::open` on an existing file. -/
def loadToxData (env : CryptoEnv) (openOk : Bool) (password : String)
    (fs : FS) (filePath : String) : LoadToxResult :=
  match fs filePath with
  | none => ⟨none, [], LoadToxDataError.FILE_NOT_FOUND⟩
  | some contents =>
    if openOk = false then ⟨none, [], LoadToxDataError.COULD_NOT_READ_FILE⟩
    else if contents = [] then ⟨none, [], LoadToxDataError.FILE_IS_EMPTY⟩
    else if env.isEncrypted contents then
      if password = "" then ⟨none, contents, LoadToxDataError.ENCRYPTED_NO_PASSWORD⟩
      else
        match env.makeToxEncryptData password contents with
        | none => ⟨none, contents, LoadToxDataError.COULD_NOT_DERIVE_KEY⟩
        | some k =>
          let dec := env.decrypt k contents
          if dec = [] then ⟨none, dec, LoadToxDataError.DECRYPTION_FAILED⟩
          else ⟨some k, dec, LoadToxDataError.OK⟩
    else ⟨none, contents, LoadToxDataError.OK⟩

/-- Modelled from the spec: the Profile Lock (ProfileLocker, whose
implementation is not in this tree). `heldBy` is the name this process
currently holds a lock for; `fsAvail` says whether the filesystem-level lock
for a name can be taken (i.e. is not held by another instance). -/
structure LockSvc where
  heldBy : Option String
  fsAvail : String → Bool

/-- Modelled from the spec: `ProfileLocker::hasLock` — true if this process
currently holds any profile lock. -/
def hasLock (svc : LockSvc) : Bool :=
  svc.heldBy.isSome

/-- Modelled from the spec: `ProfileLocker::lock(name)`. Succeeds trivially
if this process already holds the lock for the same name; otherwise tries the
filesystem-level lock for `name` and, on success, adopts it (releasing any
previously held lock only after the new one is acquired, as the spec requires
for rename: acquire the new lock before releasing the old). On failure the
lock state is unchanged. -/
def lockerLock (svc : LockSvc) (name : String) : Bool × LockSvc :=
  if svc.heldBy = some name then (true, svc)
  else if svc.fsAvail name then (true, { svc with heldBy := some name })
  else (false, svc)

/-- Modelled from the spec: `ProfileLocker::unlock` — releases the held lock;
a no-op if nothing is held. -/
def lockerUnlock (svc : LockSvc) : LockSvc :=
  { svc with heldBy := none }

/-- The Profile value state: name, optional key material, removed flag and
encrypted flag (the members set by the C++ constructor). -/
structure ProfileR where
  name : String
  passkey : Option Key
  isRemoved : Bool
  encrypted : Bool
deriving DecidableEq, Repr

/-- Embedding of the `Profile::Profile` constructor: `encrypted` is
initialised to `passkey != nullptr`. -/
def profileNew (name : String) (passkey : Option Key) : ProfileR :=
  { name := name, passkey := passkey, isRemoved := false,
    encrypted := passkey.isSome }

/-- Classified startup-failure errors of the Tox core (`Core::ToxCoreErrors`). -/
inductive CoreError
  | BAD_PROXY
  | ERROR_ALLOC
  | FAILED_TO_START
  | INVALID_SAVE
deriving DecidableEq, Repr

/-- Qt signals emitted by `Profile::initCore`. -/
inductive Signal
  | failedToStart
  | badProxy
deriving DecidableEq, Repr

/-- Oracle for the Tox core collaborator: `coreResult = some e` means
`Core::makeToxCore` fails with classified error `e`; `coreAvOk` is whether
`CoreAV::makeCoreAV` succeeds afterwards. -/
structure CoreEnv where
  coreResult : Option CoreError
  coreAvOk : Bool

/-- Embedding of `Profile::initCore` (profile.cpp): returns the list of
signals emitted, in order, and whether core + AV initialisation completed
(wiring reached). The save-data / new-profile mutual-exclusion checks emit
`failedToStart` but do not return early, exactly as in the source. -/
def initCore (cenv : CoreEnv) (toxSave : Bytes) (isNewProfile : Bool) :
    List Signal × Bool :=
  let s1 : List Signal :=
    if toxSave = [] ∧ isNewProfile = false then [Signal.failedToStart] else []
  let s2 : List Signal :=
    if toxSave ≠ [] ∧ isNewProfile = true then [Signal.failedToStart] else []
  match cenv.coreResult with
  | some CoreError.BAD_PROXY => (s1 ++ s2 ++ [Signal.badProxy], false)
  | some _ => (s1 ++ s2 ++ [Signal.failedToStart], false)
  | none =>
    if cenv.coreAvOk then (s1 ++ s2, true)
    else (s1 ++ s2 ++ [Signal.failedToStart], false)

/-- Observable outcome of `Profile::loadProfile` / `Profile::createProfile`:
the returned pointer (as an option), the final lock state, the final
filesystem, the signals emitted during core init, and the loader error. -/
structure LoadProfileOut where
  profile : Option ProfileR
  lock : LockSvc
  fs : FS
  signals : List Signal
  error : Option LoadToxDataError

/-- Embedding of `Profile::loadProfile` (profile.cpp). `dbEffect` models the
filesystem effect of opening the history database (RawDatabase may create the
.db file); it runs only on the success path, after the Profile is built. -/
def loadProfile (env : CryptoEnv) (cenv : CoreEnv) (dbEffect : FS → FS)
    (settingsDir : String) (openOk : Bool) (name password : String)
    (svc : LockSvc) (fs : FS) : LoadProfileOut :=
  if hasLock svc then ⟨none, svc, fs, [], none⟩
  else
    match lockerLock svc name with
    | (false, svc1) => ⟨none, svc1, fs, [], none⟩
    | (true, svc1) =>
      let path := settingsDir ++ name ++ ".tox"
      let r := loadToxData env openOk password fs path
      if r.error = LoadToxDataError.OK then
        let p := profileNew name r.key
        let sigs := initCore cenv r.data false
        ⟨some p, svc1, dbEffect fs, sigs.1, some LoadToxDataError.OK⟩
      else ⟨none, lockerUnlock svc1, fs, [], some r.error⟩

/-- Embedding of `createToxData` (profile.cpp): derive a fresh key when the
password is non-empty, then check the process-wide lock, the target path, and
acquire the lock for the new name. -/
def createToxData (env : CryptoEnv) (name password filePath : String)
    (fs : FS) (svc : LockSvc) : Option Key × CreateToxDataError × LockSvc :=
  if password ≠ "" ∧ env.makeToxEncrypt password = none then
    (none, CreateToxDataError.COULD_NOT_DERIVE_KEY, svc)
  else
    let newKey := if password = "" then none else env.makeToxEncrypt password
    if hasLock svc then (none, CreateToxDataError.PROFILE_LOCKED, svc)
    else if (fs filePath).isSome then (none, CreateToxDataError.ALREADY_EXISTS, svc)
    else
      match lockerLock svc name with
      | (false, svc1) => (none, CreateToxDataError.LOCK_FAILED, svc1)
      | (true, svc1) => (newKey, CreateToxDataError.OK, svc1)

/-- Embedding of `Profile::createProfile` (profile.cpp). A new profile runs
`initCore` with empty save bytes and `isNewProfile = true`. -/
def createProfile (env : CryptoEnv) (cenv : CoreEnv) (dbEffect : FS → FS)
    (settingsDir : String) (name password : String)
    (svc : LockSvc) (fs : FS) : LoadProfileOut :=
  let path := settingsDir ++ name ++ ".tox"
  match createToxData env name password path fs svc with
  | (key, CreateToxDataError.OK, svc1) =>
    let p := profileNew name key
    let sigs := initCore cenv [] true
    ⟨some p, svc1, dbEffect fs, sigs.1, none⟩
  | (_, _, svc1) => ⟨none, svc1, fs, [], none⟩

/-- Embedding of `Profile::saveToxSave` (profile.cpp) under QSaveFile
semantics: data is written to a staging area and replaces the committed file
only on `commit()`, which the source calls only after a successful `flush()`.
`passkeyEncrypt` is the member call `passkey->encrypt`; `openOk` and
`flushOk` model the QSaveFile open and flush outcomes; `file` is the
currently persisted content of the save file (`none` = absent).
Returns (success, persisted file content afterwards). -/
def saveToxSave (passkeyEncrypt : Bytes → Bytes) (openOk flushOk : Bool)
    (encrypted : Bool) (data : Bytes) (file : Option Bytes) :
    Bool × Option Bytes :=
  if openOk = false then (false, file)
  else
    let data1 := if encrypted then passkeyEncrypt data else data
    if encrypted = true ∧ data1 = [] then (false, file)
    else if flushOk then (true, some data1)
    else (false, file)

/-- The database-password error string returned by `Profile::setPassword`
(apostrophe of the source text omitted). -/
def dbPasswordErrorMsg : String :=
  "Couldnt change database password, it may be corrupted or use the old password."

/-- The key-derivation error string returned by `Profile::setPassword`
(apostrophe of the source text omitted). -/
def deriveKeyErrorMsg : String :=
  "Failed to derive key from password, the profile wont use the new password."

/-- Embedding of `Profile::setPassword` (profile.cpp). An empty new password
sets `encrypted := false` (the passkey member is left untouched); a non-empty
one derives a brand-new key (early error return if derivation fails) and sets
`encrypted := true`. `dbPresent` is whether the history database handle is
non-null and `dbSetOk` the result of `database->setPassword`; `dbSuccess`
starts false and is set only when the handle exists, so the non-empty
database error string is returned whenever the handle is absent or re-keying
fails. Returns the updated profile and the error string (empty on success). -/
def setPassword (env : CryptoEnv) (dbPresent dbSetOk : Bool) (p : ProfileR)
    (newPassword : String) : ProfileR × String :=
  if newPassword = "" then
    let p1 := { p with encrypted := false }
    let dbSuccess := dbPresent && dbSetOk
    (p1, if dbSuccess then "" else dbPasswordErrorMsg)
  else
    match env.makeToxEncrypt newPassword with
    | none => (p, deriveKeyErrorMsg)
    | some k =>
      let p1 := { p with passkey := some k, encrypted := true }
      let dbSuccess := dbPresent && dbSetOk
      (p1, if dbSuccess then "" else dbPasswordErrorMsg)

/-- The fixed salt-length contract of toxencryptsave (TOX_PASS_SALT_LENGTH). -/
def TOX_PASS_SALT_LENGTH : Nat := 32

/-- Observable outcome of `Profile::loadDatabase`: whether the shared
database handle was assigned, whether it reports open, whether the History
collaborator was constructed, how many user-visible error boxes were shown,
and whether the removed-profile guard returned early. -/
structure LoadDbOut where
  databaseAssigned : Bool
  databaseOpen : Bool
  historySet : Bool
  errorBoxes : Nat
  returnedEarly : Bool
deriving DecidableEq, Repr

/-- Embedding of `Profile::loadDatabase` (profile.cpp). `saltLen` is the byte
length of the owner public key used as salt; `dbOpens` is the oracle for
whether the RawDatabase constructed from (path, password, salt) reports open.
The salt-length check only warns and shows an error box; the database is
constructed unconditionally afterwards. -/
def loadDatabase (dbOpens : Bool) (isRemoved : Bool) (saltLen : Nat) :
    LoadDbOut :=
  if isRemoved then ⟨false, false, false, 0, true⟩
  else
    let e1 := if saltLen ≠ TOX_PASS_SALT_LENGTH then 1 else 0
    if dbOpens then ⟨true, true, true, e1, false⟩
    else ⟨true, false, false, e1 + 1, false⟩

/-- Embedding of `Profile::avatarPath` (profile.cpp). `hashedName` is the
keyed generic hash of the owner identity string (keyed by the self public
key), already rendered as uppercase hex. -/
def avatarPath (dir : String) (hashedName : String → String)
    (encrypted forceUnencrypted : Bool) (ownerStr : String) : String :=
  if encrypted = false ∨ forceUnencrypted = true then
    dir ++ "avatars/" ++ ownerStr ++ ".png"
  else
    dir ++ "avatars/" ++ hashedName ownerStr ++ ".png"

/-- Embedding of `Profile::loadAvatarData` (profile.cpp). When the profile is
encrypted but the file at the hashed path does not exist, fall back to the
plaintext path and treat the avatar as unencrypted; decrypt (via the member
call `passkey->decrypt`, here `decryptK`) only a non-empty buffer read while
still marked encrypted. -/
def loadAvatarData (fs : FS) (decryptK : Bytes → Bytes) (dir : String)
    (hashedName : String → String) (encrypted : Bool) (ownerStr : String) :
    Bytes :=
  let path0 := avatarPath dir hashedName encrypted false ownerStr
  let fallback : Bool := encrypted && (fs path0).isNone
  let avatarEncrypted : Bool := if fallback then false else encrypted
  let path := if fallback then avatarPath dir hashedName encrypted true ownerStr else path0
  match fs path with
  | none => []
  | some pic => if avatarEncrypted = true ∧ pic ≠ [] then decryptK pic else pic

/-- Embedding of `Profile::getAvatarHash` (profile.cpp): the tox hash of the
cached avatar bytes for the owner. `toxHash` is the external `tox_hash`. -/
def getAvatarHash (toxHash : Bytes → Bytes) (fs : FS)
    (decryptK : Bytes → Bytes) (dir : String) (hashedName : String → String)
    (encrypted : Bool) (ownerStr : String) : Bytes :=
  toxHash (loadAvatarData fs decryptK dir hashedName encrypted ownerStr)

/-- Embedding of the accept decision in `Profile::onAvatarOfferReceived`
(profile.cpp): accept iff the cached avatar hash differs from the offered
hash; the decision is forwarded to `handleAvatarOffer`. -/
def onAvatarOfferReceived (toxHash : Bytes → Bytes) (fs : FS)
    (decryptK : Bytes → Bytes) (dir : String) (hashedName : String → String)
    (encrypted : Bool) (ownerStr : String) (avatarHash : Bytes) : Bool :=
  getAvatarHash toxHash fs decryptK dir hashedName encrypted ownerStr ≠ avatarHash

/-- Primitive observable steps performed by `Profile::remove`. -/
inductive RemoveEvent
  | setRemovedFlag
  | unlockEvent
  | tryDeleteMain
  | tryDeleteConfig
  | tryDeleteDb
deriving DecidableEq, Repr

/-- Oracles for the filesystem/database operations attempted by
`Profile::remove`: each deletion result plus whether the file still exists
after a failed deletion (the source reports a path only when the remove
failed and the file still exists). -/
structure RemoveEnv where
  mainRemoveOk : Bool
  mainStillThere : Bool
  configRemoveOk : Bool
  configStillThere : Bool
  dbOpen : Bool
  dbRemoveOk : Bool
  dbStillThere : Bool

/-- State of a profile relevant to `Profile::remove`: the profile value, the
static profiles list, the lock, and the database/history handles. -/
structure ProfileState where
  prof : ProfileR
  profilesList : List String
  svc : LockSvc
  databasePresent : Bool
  historyPresent : Bool

/-- Embedding of `Profile::remove` (profile.cpp). Already-removed profiles
return an empty failure list with no events and an unchanged state. A first
call sets the removed flag, drops the name from the profiles list, unlocks,
then attempts each deletion independently (the database deletion only if the
handle is present and open), collecting the paths that could not be removed,
and finally resets the history and database handles. The returned event list
records the order of the observable steps. -/
def removeProfile (env : RemoveEnv) (dir : String) (st : ProfileState) :
    ProfileState × List String × List RemoveEvent :=
  if st.prof.isRemoved then (st, [], [])
  else
    let path := dir ++ st.prof.name
    let dbPath := dir ++ st.prof.name ++ ".db"
    let dbTried : Bool := st.databasePresent && env.dbOpen
    let ret1 : List String :=
      if env.mainRemoveOk = false ∧ env.mainStillThere = true then [path ++ ".tox"] else []
    let ret2 : List String :=
      if env.configRemoveOk = false ∧ env.configStillThere = true then [path ++ ".ini"] else []
    let ret3 : List String :=
      if dbTried = true ∧ env.dbRemoveOk = false ∧ env.dbStillThere = true then [dbPath] else []
    ( { prof := { st.prof with isRemoved := true },
        profilesList := st.profilesList.filter (fun s => s ≠ st.prof.name),
        svc := lockerUnlock st.svc,
        databasePresent := false, historyPresent := false },
      ret1 ++ ret2 ++ ret3,
      [RemoveEvent.setRemovedFlag, RemoveEvent.unlockEvent,
       RemoveEvent.tryDeleteMain, RemoveEvent.tryDeleteConfig]
        ++ (if dbTried then [RemoveEvent.tryDeleteDb] else []) )

/-- Primitive observable steps performed by `Profile::rename`. -/
inductive RenameEvent
  | lockNewName
  | renameToxFile
  | renameIniFile
  | renameDbFile
deriving DecidableEq, Repr

/-- Embedding of `Profile::rename` (profile.cpp): first acquire the lock
under the new name (failure returns false with nothing done); only then
rename the save, settings, and database files and update the in-memory name.
The trace pairs each event with the lock state in force after it, so
lock coverage at every observable instant can be stated. -/
def renameProfile (svc : LockSvc) (dbPresent : Bool) (p : ProfileR)
    (newName : String) :
    Bool × ProfileR × LockSvc × List (RenameEvent × LockSvc) :=
  match lockerLock svc newName with
  | (false, svc1) => (false, p, svc1, [])
  | (true, svc1) =>
    (true, { p with name := newName }, svc1,
      [(RenameEvent.lockNewName, svc1), (RenameEvent.renameToxFile, svc1),
       (RenameEvent.renameIniFile, svc1)]
        ++ (if dbPresent then [(RenameEvent.renameDbFile, svc1)] else []))

/-! Concrete collaborator instances used to exercise the embedding on
closed inputs. -/

/-- A codec oracle that reports every buffer as encrypted, derives key 0,
and en/decrypts as the identity. -/
def cryptoEncAll : CryptoEnv :=
  ⟨fun _ => true, fun _ => some 0, fun _ _ => some 0, fun _ d => d, fun _ d => d⟩

/-- A codec oracle that reports every buffer as unencrypted. -/
def cryptoPlain : CryptoEnv :=
  ⟨fun _ => false, fun _ => some 0, fun _ _ => some 0, fun _ d => d, fun _ d => d⟩

/-- A Tox core oracle that starts successfully. -/
def coreEnvOk : CoreEnv := ⟨none, true⟩

/-- A Tox core oracle whose `makeToxCore` fails with FAILED_TO_START. -/
def coreEnvFailStart : CoreEnv := ⟨some CoreError.FAILED_TO_START, true⟩

/-- A filesystem holding exactly one profile save file. -/
def fsAlice : FS := fun p => if p = "dir/alice.tox" then some [1, 2, 3] else none

/-- A lock service holding nothing, with every filesystem lock available. -/
def svcFree : LockSvc := ⟨none, fun _ => true⟩

/-- C1: loadProfile with a lock already held fails with no Profile and no
filesystem or lock mutation; on an encrypted blob the loader classifies an
empty password as ENCRYPTED_NO_PASSWORD, a failed derivation against the
blob's embedded parameters as COULD_NOT_DERIVE_KEY, and an empty decryption
result as DECRYPTION_FAILED; and every loader failure makes loadProfile
release the acquired lock, leave the filesystem unchanged, and return no
Profile. -/
theorem loadProfile_failure_contract
    (env : CryptoEnv) (cenv : CoreEnv) (dbEffect : FS → FS)
    (dir : String) (openOk : Bool) (name password : String)
    (svc : LockSvc) (fs : FS) (contents : Bytes)
    (hc : fs (dir ++ name ++ ".tox") = some contents) :
    (hasLock svc = true →
      loadProfile env cenv dbEffect dir openOk name password svc fs =
        ⟨none, svc, fs, [], none⟩) ∧
    (openOk = true → contents ≠ [] → env.isEncrypted contents = true →
      (password = "" →
        (loadToxData env openOk password fs (dir ++ name ++ ".tox")).error =
          LoadToxDataError.ENCRYPTED_NO_PASSWORD) ∧
      (password ≠ "" → env.makeToxEncryptData password contents = none →
        (loadToxData env openOk password fs (dir ++ name ++ ".tox")).error =
          LoadToxDataError.COULD_NOT_DERIVE_KEY) ∧
      (∀ k, password ≠ "" → env.makeToxEncryptData password contents = some k →
        env.decrypt k contents = [] →
        (loadToxData env openOk password fs (dir ++ name ++ ".tox")).error =
          LoadToxDataError.DECRYPTION_FAILED)) ∧
    (∀ e, (loadProfile env cenv dbEffect dir openOk name password svc fs).error = some e →
      e ≠ LoadToxDataError.OK →
      (loadProfile env cenv dbEffect dir openOk name password svc fs).profile = none ∧
      hasLock (loadProfile env cenv dbEffect dir openOk name password svc fs).lock = false ∧
      (loadProfile env cenv dbEffect dir openOk name password svc fs).fs = fs) := by
  refine ⟨?_, ?_, ?_⟩
  · intro h
    simp [loadProfile, h]
  · intro hopen hne henc
    refine ⟨?_, ?_, ?_⟩
    · intro hpw
      simp [loadToxData, hc, hopen, hne, henc, hpw]
    · intro hpw hnk
      simp [loadToxData, hc, hopen, hne, henc, hpw, hnk]
    · intro k hpw hk hdec
      simp [loadToxData, hc, hopen, hne, henc, hpw, hk, hdec]
  · intro e he hne
    by_cases hlock : hasLock svc = true
    · simp [loadProfile, hlock] at he
    · rcases hll : lockerLock svc name with ⟨ok, svc1⟩
      cases ok
      · simp [loadProfile, hlock, hll] at he
      · by_cases herr : (loadToxData env openOk password fs (dir ++ name ++ ".tox")).error =
            LoadToxDataError.OK
        · simp [loadProfile, hlock, hll, herr] at he
          exact absurd he.symm hne
        · simp only [hasLock] at hlock
          simp [loadProfile, hasLock, hlock, hll, herr, lockerUnlock]

/-- C1 witness: a concrete encrypted save file loaded with an empty password
is classified ENCRYPTED_NO_PASSWORD. -/
theorem loadProfile_failure_contract_witness :
    (loadToxData cryptoEncAll true "" fsAlice ("dir/" ++ "alice" ++ ".tox")).error =
      LoadToxDataError.ENCRYPTED_NO_PASSWORD :=
  ((loadProfile_failure_contract cryptoEncAll coreEnvOk id "dir/" true "alice" ""
      svcFree fsAlice [1, 2, 3] (by decide)).2.1 rfl (by decide) rfl).1 rfl

/-- C2: saveToxSave abandons the write and returns false, leaving the
persisted file untouched, when encryption of the data yields an empty
buffer; it commits new content only after a successful flush; and on every
failure (open, encrypt, or flush) the previously persisted file is
unchanged. -/
theorem saveToxSave_atomic (passkeyEncrypt : Bytes → Bytes)
    (openOk flushOk encrypted : Bool) (data : Bytes) (file : Option Bytes) :
    (encrypted = true → passkeyEncrypt data = [] →
      saveToxSave passkeyEncrypt openOk flushOk encrypted data file = (false, file)) ∧
    ((saveToxSave passkeyEncrypt openOk flushOk encrypted data file).1 = true →
      flushOk = true ∧
      (saveToxSave passkeyEncrypt openOk flushOk encrypted data file).2 =
        some (if encrypted then passkeyEncrypt data else data)) ∧
    ((saveToxSave passkeyEncrypt openOk flushOk encrypted data file).1 = false →
      (saveToxSave passkeyEncrypt openOk flushOk encrypted data file).2 = file) := by
  unfold saveToxSave
  refine ⟨?_, ?_, ?_⟩
  · intro henc hemp
    simp [henc, hemp]
  · by_cases hemp : passkeyEncrypt data = [] <;> split_ifs <;> simp_all
  · by_cases hemp : passkeyEncrypt data = [] <;> split_ifs <;> simp_all

/-- C2 witness: with an encryption oracle returning the empty buffer, a
concrete encrypted save attempt fails and leaves the old file content. -/
theorem saveToxSave_atomic_witness :
    saveToxSave (fun _ => []) true true true [1] (some [2]) = (false, some [2]) :=
  (saveToxSave_atomic (fun _ => []) true true true [1] (some [2])).1 rfl rfl

/-- C3 counterexample: on a concrete encrypted profile, setPassword with an
empty new password sets the encrypted flag to false but leaves the passkey in
place, so the claimed iff-invariant (encrypted iff key material present) does
not hold and the key is not cleared. -/
theorem setPassword_empty_counterexample :
    ((setPassword cryptoEncAll true true (profileNew "alice" (some 7)) "").1.encrypted
        = false) ∧
    ((setPassword cryptoEncAll true true (profileNew "alice" (some 7)) "").1.passkey
        = some 7) ∧
    ¬(((setPassword cryptoEncAll true true (profileNew "alice" (some 7)) "").1.encrypted
          = true) ↔
      ((setPassword cryptoEncAll true true (profileNew "alice" (some 7)) "").1.passkey.isSome
          = true)) := by
  refine ⟨rfl, rfl, ?_⟩
  decide

/-- C3 amended: the constructor establishes encrypted = (key present); every
setPassword preserves the one-directional invariant (encrypted implies key
material present); and setPassword with an empty new password only clears the
encrypted flag, leaving the passkey (and all other fields) unchanged rather
than clearing the key. -/
theorem profile_encrypted_invariant_amended
    (env : CryptoEnv) (dbPresent dbSetOk : Bool) (p : ProfileR)
    (newPassword : String) (nm : String) (k : Option Key)
    (hp : p.encrypted = true → p.passkey.isSome = true) :
    ((profileNew nm k).encrypted = k.isSome) ∧
    ((setPassword env dbPresent dbSetOk p newPassword).1.encrypted = true →
      (setPassword env dbPresent dbSetOk p newPassword).1.passkey.isSome = true) ∧
    (newPassword = "" →
      (setPassword env dbPresent dbSetOk p newPassword).1 =
        { p with encrypted := false }) := by
  refine ⟨rfl, ?_, ?_⟩
  · unfold setPassword
    by_cases hpw : newPassword = ""
    · simp only [hpw, if_pos rfl]
      intro h
      exact absurd h (by simp)
    · simp only [if_neg hpw]
      rcases hk : env.makeToxEncrypt newPassword with _ | key


      · exact hp
      · intro _
        rfl
  · intro hpw
    simp [setPassword, hpw]

/-- C3 witness: the amended invariant applied to a concrete encrypted
profile and an empty new password. -/
theorem profile_encrypted_invariant_amended_witness :
    (setPassword cryptoEncAll true true (profileNew "bob" (some 3)) "").1 =
      { profileNew "bob" (some 3) with encrypted := false } :=
  (profile_encrypted_invariant_amended cryptoEncAll true true
    (profileNew "bob" (some 3)) "" "bob" (some 3) (fun _ => rfl)).2.2 rfl

/-- A Tox core oracle whose `makeToxCore` fails with BAD_PROXY. -/
def coreEnvBadProxy : CoreEnv := ⟨some CoreError.BAD_PROXY, true⟩

/-- C4 counterexample: on a concrete unencrypted profile whose core
initialisation fails with FAILED_TO_START, the classified signal is emitted
yet loadProfile still returns a Profile (not nullptr). -/
theorem loadProfile_core_failure_counterexample :
    ((loadProfile cryptoPlain coreEnvFailStart id "dir/" true "alice" ""
        svcFree fsAlice).profile ≠ none) ∧
    (Signal.failedToStart ∈
      (loadProfile cryptoPlain coreEnvFailStart id "dir/" true "alice" ""
        svcFree fsAlice).signals) := by
  decide

/-- C4 amended: every core-initialisation failure is propagated as a
classified signal (badProxy for a bad proxy, failedToStart for allocation,
invalid-save, generic start and AV failures, and for a breach of the
save-data / new-profile mutual-exclusion contract) and initialisation stops
before completion; but the returned Profile pointer of
loadProfile/createProfile is independent of the core outcome, and is null
exactly when the lock or save-loading stage failed. -/
theorem initCore_failure_classified
    (env : CryptoEnv) (cenv cenv2 : CoreEnv) (dbEffect : FS → FS)
    (dir : String) (openOk : Bool) (name password : String)
    (svc : LockSvc) (fs : FS) (toxSave : Bytes) (isNew : Bool) :
    (cenv.coreResult = some CoreError.BAD_PROXY →
      Signal.badProxy ∈ (initCore cenv toxSave isNew).1 ∧
      (initCore cenv toxSave isNew).2 = false) ∧
    (∀ e, cenv.coreResult = some e → e ≠ CoreError.BAD_PROXY →
      Signal.failedToStart ∈ (initCore cenv toxSave isNew).1 ∧
      (initCore cenv toxSave isNew).2 = false) ∧
    (cenv.coreResult = none → cenv.coreAvOk = false →
      Signal.failedToStart ∈ (initCore cenv toxSave isNew).1 ∧
      (initCore cenv toxSave isNew).2 = false) ∧
    ((toxSave = [] ∧ isNew = false) ∨ (toxSave ≠ [] ∧ isNew = true) →
      Signal.failedToStart ∈ (initCore cenv toxSave isNew).1) ∧
    ((loadProfile env cenv dbEffect dir openOk name password svc fs).profile =
      (loadProfile env cenv2 dbEffect dir openOk name password svc fs).profile) ∧
    ((createProfile env cenv dbEffect dir name password svc fs).profile =
      (createProfile env cenv2 dbEffect dir name password svc fs).profile) ∧
    ((loadProfile env cenv dbEffect dir openOk name password svc fs).profile.isSome ↔
      (loadProfile env cenv dbEffect dir openOk name password svc fs).error =
        some LoadToxDataError.OK) := by
  refine ⟨?_, ?_, ?_, ?_, ?_, ?_, ?_⟩
  · intro h
    simp [initCore, h]
  · intro e h hne
    cases e <;> simp [initCore, h] at hne ⊢
  · intro h hav
    simp [initCore, h, hav]
  · intro h
    rcases hres : cenv.coreResult with _ | e
    · rcases h with ⟨h1, h2⟩ | ⟨h1, h2⟩ <;>
        simp [initCore, h1, h2, hres] <;> split_ifs <;> simp
    · cases e <;> rcases h with ⟨h1, h2⟩ | ⟨h1, h2⟩ <;>
        simp [initCore, h1, h2, hres]
  · by_cases hlock : hasLock svc = true
    · simp [loadProfile, hlock]
    · rcases hll : lockerLock svc name with ⟨ok, svc1⟩
      cases ok <;>
        by_cases herr : (loadToxData env openOk password fs (dir ++ name ++ ".tox")).error =
          LoadToxDataError.OK <;>
        simp [loadProfile, hlock, hll, herr]
  · rcases hcd : createToxData env name password (dir ++ name ++ ".tox") fs svc with
      ⟨key, err, svc1⟩
    cases err <;> simp [createProfile, hcd]
  · by_cases hlock : hasLock svc = true
    · simp [loadProfile, hlock]
    · rcases hll : lockerLock svc name with ⟨ok, svc1⟩
      cases ok <;>
        by_cases herr : (loadToxData env openOk password fs (dir ++ name ++ ".tox")).error =
          LoadToxDataError.OK <;>
        simp [loadProfile, hlock, hll, herr]

/-- C4 witness: the classification applied to a concrete bad-proxy core
failure. -/
theorem initCore_failure_classified_witness :
    Signal.badProxy ∈ (initCore coreEnvBadProxy [1] false).1 ∧
    (initCore coreEnvBadProxy [1] false).2 = false :=
  (initCore_failure_classified cryptoPlain coreEnvBadProxy coreEnvOk id "dir/"
    true "alice" "" svcFree fsAlice [1] false).1 rfl

/-- C5 counterexample: with a salt of length 31 (not the fixed contract
length) on a concrete non-removed profile whose RawDatabase opens, the
chat-logs-disabled error box is shown, yet the database is still opened and
history is enabled — the bad salt does not prevent the open. -/
theorem loadDatabase_bad_salt_counterexample :
    (loadDatabase true false 31).databaseOpen = true ∧
    (loadDatabase true false 31).historySet = true ∧
    (loadDatabase true false 31).errorBoxes = 1 := by
  decide

/-- C5 amended: a salt whose length differs from TOX_PASS_SALT_LENGTH
produces the user-visible chat-logs-disabled messaging, but the database open
is still attempted (the handle is assigned unconditionally) and succeeds or
fails solely with RawDatabase; history is enabled exactly when the open
succeeds; the failure is recoverable and never aborts the profile. -/
theorem loadDatabase_salt_check_nonfatal (dbOpens isRemoved : Bool)
    (saltLen : Nat) (hr : isRemoved = false) :
    (saltLen ≠ TOX_PASS_SALT_LENGTH →
      (loadDatabase dbOpens isRemoved saltLen).errorBoxes ≥ 1) ∧
    ((loadDatabase dbOpens isRemoved saltLen).databaseAssigned = true) ∧
    ((loadDatabase dbOpens isRemoved saltLen).databaseOpen = dbOpens) ∧
    ((loadDatabase dbOpens isRemoved saltLen).historySet = dbOpens) ∧
    ((loadDatabase dbOpens isRemoved saltLen).returnedEarly = false) := by
  subst hr
  unfold loadDatabase
  by_cases hs : saltLen = TOX_PASS_SALT_LENGTH <;> cases dbOpens <;> simp [hs]

/-- C5 witness: the amended statement applied to a concrete wrong-length
salt with a database that fails to open. -/
theorem loadDatabase_salt_check_nonfatal_witness :
    (loadDatabase false false 16).errorBoxes ≥ 1 ∧
    (loadDatabase false false 16).databaseAssigned = true :=
  ⟨(loadDatabase_salt_check_nonfatal false false 16 rfl).1 (by decide),
   (loadDatabase_salt_check_nonfatal false false 16 rfl).2.1⟩

/-- C6: remove is idempotent — a second call (under any deletion oracle)
returns an empty failure list, performs no observable step, and leaves the
state unchanged; a first call sets the removed flag before any deletion and
releases the lock before any deletion, drops the name from the profiles
list, attempts every deletion independently, and collects exactly the paths
whose deletion failed. -/
theorem remove_idempotent (env env2 : RemoveEnv) (dir : String)
    (st : ProfileState) (h : st.prof.isRemoved = false) :
    (removeProfile env2 dir (removeProfile env dir st).1 =
      ((removeProfile env dir st).1, [], [])) ∧
    ((removeProfile env dir st).1.prof.isRemoved = true) ∧
    (hasLock (removeProfile env dir st).1.svc = false) ∧
    (st.prof.name ∉ (removeProfile env dir st).1.profilesList) ∧
    ((removeProfile env dir st).2.2.take 2 =
      [RemoveEvent.setRemovedFlag, RemoveEvent.unlockEvent]) ∧
    (RemoveEvent.tryDeleteMain ∈ (removeProfile env dir st).2.2) ∧
    (RemoveEvent.tryDeleteConfig ∈ (removeProfile env dir st).2.2) ∧
    (st.databasePresent = true → env.dbOpen = true →
      RemoveEvent.tryDeleteDb ∈ (removeProfile env dir st).2.2) ∧
    (env.mainRemoveOk = false → env.mainStillThere = true →
      (dir ++ st.prof.name ++ ".tox") ∈ (removeProfile env dir st).2.1) ∧
    (env.configRemoveOk = false → env.configStillThere = true →
      (dir ++ st.prof.name ++ ".ini") ∈ (removeProfile env dir st).2.1) ∧
    (st.databasePresent = true → env.dbOpen = true → env.dbRemoveOk = false →
      env.dbStillThere = true →
      (dir ++ st.prof.name ++ ".db") ∈ (removeProfile env dir st).2.1) := by
  refine ⟨?_, ?_, ?_, ?_, ?_, ?_, ?_, ?_, ?_, ?_, ?_⟩
  · have h1 : (removeProfile env dir st).1.prof.isRemoved = true := by
      simp [removeProfile, h]
    generalize hst : (removeProfile env dir st).1 = st1 at h1 ⊢
    unfold removeProfile
    simp [h1]
  · simp [removeProfile, h]
  · simp [removeProfile, h, hasLock, lockerUnlock]
  · simp [removeProfile, h, List.mem_filter]
  · simp [removeProfile, h]
  · by_cases hdb : st.databasePresent && env.dbOpen <;> simp [removeProfile, h, hdb]
  · by_cases hdb : st.databasePresent && env.dbOpen <;> simp [removeProfile, h, hdb]
  · intro h1 h2
    simp [removeProfile, h, h1, h2]
  · intro h1 h2
    simp [removeProfile, h, h1, h2]
  · intro h1 h2
    simp [removeProfile, h, h1, h2]
  · intro h1 h2 h3 h4
    simp [removeProfile, h, h1, h2, h3, h4]

/-- C6 witness: the idempotence applied to a concrete profile state in which
every deletion succeeds. -/
theorem remove_idempotent_witness :
    (removeProfile ⟨true, false, true, false, false, true, false⟩ "dir/"
        (removeProfile ⟨true, false, true, false, false, true, false⟩ "dir/"
          ⟨profileNew "alice" none, ["alice"], svcFree, false, false⟩).1 =
      ((removeProfile ⟨true, false, true, false, false, true, false⟩ "dir/"
          ⟨profileNew "alice" none, ["alice"], svcFree, false, false⟩).1, [], [])) :=
  (remove_idempotent ⟨true, false, true, false, false, true, false⟩
    ⟨true, false, true, false, false, true, false⟩ "dir/"
    ⟨profileNew "alice" none, ["alice"], svcFree, false, false⟩ rfl).1

/-- C7: an incoming avatar offer is accepted iff the tox hash of the locally
cached avatar for that friend differs from the offered hash; identical
hashes are rejected. -/
theorem avatar_offer_accept_iff (toxHash : Bytes → Bytes) (fs : FS)
    (decryptK : Bytes → Bytes) (dir : String) (hashedName : String → String)
    (encrypted : Bool) (ownerStr : String) (offered : Bytes) :
    (onAvatarOfferReceived toxHash fs decryptK dir hashedName encrypted
        ownerStr offered = true ↔
      getAvatarHash toxHash fs decryptK dir hashedName encrypted ownerStr ≠
        offered) ∧
    (getAvatarHash toxHash fs decryptK dir hashedName encrypted ownerStr =
        offered →
      onAvatarOfferReceived toxHash fs decryptK dir hashedName encrypted
        ownerStr offered = false) := by
  constructor
  · simp [onAvatarOfferReceived]
  · intro h
    simp [onAvatarOfferReceived, h]

/-- C7 witness: a concrete offer whose hash equals the cached hash is
rejected. -/
theorem avatar_offer_accept_iff_witness :
    onAvatarOfferReceived (fun _ => [9]) (fun _ => none) id "dir/" id
      false "alice" [9] = false :=
  (avatar_offer_accept_iff (fun _ => [9]) (fun _ => none) id "dir/" id
    false "alice" [9]).2 rfl

/-- C8: rename acquires the lock under the new name before any file is
renamed — if that acquisition fails, rename returns false with no renaming
and an unchanged lock; on success the first observable event is the new-name
lock acquisition, at every observable instant of the trace a lock is held
(given one was held at entry), and the new name holds the lock at the end. -/
theorem rename_lock_continuity (svc : LockSvc) (dbPresent : Bool)
    (p : ProfileR) (newName : String) (hheld : hasLock svc = true) :
    ((renameProfile svc dbPresent p newName).1 = false →
      renameProfile svc dbPresent p newName = (false, p, svc, [])) ∧
    ((renameProfile svc dbPresent p newName).1 = true →
      (renameProfile svc dbPresent p newName).2.2.2.head? =
        some (RenameEvent.lockNewName,
          (renameProfile svc dbPresent p newName).2.2.1)) ∧
    (∀ e ∈ (renameProfile svc dbPresent p newName).2.2.2, hasLock e.2 = true) ∧
    ((renameProfile svc dbPresent p newName).1 = true →
      (renameProfile svc dbPresent p newName).2.2.1.heldBy = some newName) := by
  unfold renameProfile lockerLock
  by_cases h1 : svc.heldBy = some newName
  · refine ⟨?_, ?_, ?_, ?_⟩
    · simp [h1]
    · cases dbPresent <;> simp [h1]
    · cases dbPresent <;> simp [h1, hasLock]
    · simp [h1]
  · by_cases h2 : svc.fsAvail newName = true
    · refine ⟨?_, ?_, ?_, ?_⟩
      · simp [h1, h2]
      · cases dbPresent <;> simp [h1, h2]
      · cases dbPresent <;> simp [h1, h2, hasLock]
      · simp [h1, h2]
    · refine ⟨?_, ?_, ?_, ?_⟩
      · simp [h1, h2]
      · simp [h1, h2]
      · simp [h1, h2]
      · simp [h1, h2]

/-- C8 witness: renaming a concretely locked profile transfers the lock to
the new name, with the lock held after the acquisition event. -/
theorem rename_lock_continuity_witness :
    (renameProfile ⟨some "alice", fun _ => true⟩ false (profileNew "alice" none)
        "carol").2.2.1.heldBy = some "carol" :=
  (rename_lock_continuity ⟨some "alice", fun _ => true⟩ false
    (profileNew "alice" none) "carol" rfl).2.2.2 rfl

/-- C9: on an encrypted profile, when the avatar file at the hashed path does
not exist, loadAvatarData returns the bytes of the plaintext-path file as-is
(without decryption, empty if that file is also absent); decryption is
applied exactly to a non-empty buffer found at the hashed path. -/
theorem loadAvatarData_fallback (fs : FS) (decryptK : Bytes → Bytes)
    (dir : String) (hashedName : String → String) (ownerStr : String) :
    (fs (avatarPath dir hashedName true false ownerStr) = none →
      loadAvatarData fs decryptK dir hashedName true ownerStr =
        (fs (avatarPath dir hashedName true true ownerStr)).getD []) ∧
    (∀ pic, fs (avatarPath dir hashedName true false ownerStr) = some pic →
      loadAvatarData fs decryptK dir hashedName true ownerStr =
        if pic ≠ [] then decryptK pic else pic) := by
  constructor
  · intro h
    unfold loadAvatarData
    simp only [h, Option.isNone_none, Bool.and_true, if_true]
    cases hp : fs (avatarPath dir hashedName true true ownerStr) <;> simp [hp]
  · intro pic h
    unfold loadAvatarData
    simp only [h, Option.isNone_some, Bool.and_false, if_false]
    by_cases hp : pic = [] <;> simp [h, hp]

/-- A filesystem holding only the plaintext-path avatar for one identity. -/
def fsPlainAvatar : FS :=
  fun p => if p = "dir/avatars/alice.png" then some [5] else none

/-- C9 witness: a concrete encrypted profile whose hashed-path avatar is
absent returns the plaintext-path bytes unchanged. -/
theorem loadAvatarData_fallback_witness :
    loadAvatarData fsPlainAvatar id "dir/" (fun _ => "HASH") true "alice" =
      (fsPlainAvatar (avatarPath "dir/" (fun _ => "HASH") true true "alice")).getD [] :=
  (loadAvatarData_fallback fsPlainAvatar id "dir/" (fun _ => "HASH") "alice").1
    (by decide)

/-- C10: when the history database handle is absent, setPassword returns the
non-empty database-password error string (provided the new key, when one is
needed, derives successfully); the empty success string is returned only
when a database handle exists and its re-key succeeds. -/
theorem setPassword_db_error (env : CryptoEnv) (dbPresent dbSetOk : Bool)
    (p : ProfileR) (newPassword : String)
    (hok : newPassword = "" ∨ (env.makeToxEncrypt newPassword).isSome = true) :
    (dbPresent = false →
      (setPassword env dbPresent dbSetOk p newPassword).2 = dbPasswordErrorMsg ∧
      dbPasswordErrorMsg ≠ "") ∧
    ((setPassword env dbPresent dbSetOk p newPassword).2 = "" →
      dbPresent = true ∧ dbSetOk = true) := by
  have hmsg : dbPasswordErrorMsg ≠ "" := by decide
  have hmsg2 : deriveKeyErrorMsg ≠ "" := by decide
  unfold setPassword
  rcases hok with hpw | hk
  · constructor
    · intro hdb
      simp [hpw, hdb, hmsg]
    · intro hz
      simp [hpw] at hz
      by_cases hdb : dbPresent && dbSetOk <;> simp_all
  · by_cases hpw : newPassword = ""
    · constructor
      · intro hdb
        simp [hpw, hdb, hmsg]
      · intro hz
        simp [hpw] at hz
        by_cases hdb : dbPresent && dbSetOk <;> simp_all
    · rcases hke : env.makeToxEncrypt newPassword with _ | key
      · rw [hke] at hk
        simp at hk
      · constructor
        · intro hdb
          simp [hpw, hke, hdb, hmsg]
        · intro hz
          simp [hpw, hke] at hz
          by_cases hdb : dbPresent && dbSetOk <;> simp_all

/-- C10 witness: setPassword on a concrete profile with no database handle
returns the database error string. -/
theorem setPassword_db_error_witness :
    (setPassword cryptoEncAll false true (profileNew "alice" (some 7)) "").2 =
      dbPasswordErrorMsg :=
  ((setPassword_db_error cryptoEncAll false true (profileNew "alice" (some 7))
    "" (Or.inl rfl)).1 rfl).1

end QToxProfile
